import Mathlib

/-!
Shallow embedding of CORScanner (src/main.go): the CORS probe engine
`checkCORS`, the header parser `parseHeader`, the worker-pool loop of `main`,
and the collector's substring-based categorization.  HTTP, URL parsing and
the public-suffix library are modelled as explicit parameters (the
environment a probe runs against); the decision logic is translated from the
Go source line by line.
-/

namespace CORScanner

/-! ## Go string primitives used by the source -/

/-- Model of the character-list prefix test underlying Go's
`strings.HasPrefix`: the first list is the would-be prefix. -/
def strStartsWith : List Char → List Char → Bool
  | [], _ => true
  | _ :: _, [] => false
  | a :: as, b :: bs => a == b && strStartsWith as bs

/-- Model of Go `strings.HasSuffix(s, suffix)`. -/
def goHasSuffix (s suffix : String) : Bool :=
  strStartsWith suffix.data.reverse s.data.reverse

/-- Scan helper for `goContains`: does the needle occur at any position? -/
def strContainsAux (needle : List Char) : List Char → Bool
  | [] => strStartsWith needle []
  | c :: cs => strStartsWith needle (c :: cs) || strContainsAux needle cs

/-- Model of Go `strings.Contains(s, substr)`. -/
def goContains (s substr : String) : Bool :=
  strContainsAux substr.data s.data

/-- Character-level splitting on a one-character separator: the splitter
underlying Go's `strings.Split` for the separators `","` and `"."` used in
this program. -/
def splitChar (sep : Char) : List Char → List (List Char)
  | [] => [[]]
  | c :: rest =>
    if c == sep then [] :: splitChar sep rest
    else
      match splitChar sep rest with
      | h :: t => (c :: h) :: t
      | [] => [[c]]

/-- Model of Go `strings.Split(s, sep)` for a one-character separator. -/
def goSplit (s : String) (sep : Char) : List String :=
  (splitChar sep s.data).map (fun cs => String.mk cs)

/-- Rejoin a label list with dots (inverse of splitting on `.`). -/
def joinDots : List String → String
  | [] => ""
  | [l] => l
  | l :: ls => l ++ "." ++ joinDots ls

/-! ## Model of Go `strconv.Atoi`

`strconv.Atoi` accepts an optional sign followed by a non-empty run of
decimal digits.  On a syntax error it returns `(0, ErrSyntax)`; on a
syntactically valid number outside the 64-bit `int` range it returns the
saturated bound together with `ErrRange`.  `checkCORS` discards the error,
so the value component is what lands in `CORSConfig.MaxAge`. -/

/-- The digit run of the candidate integer, with a single leading sign
stripped. -/
def signStripped (s : String) : List Char :=
  match s.data with
  | '-' :: rest => rest
  | '+' :: rest => rest
  | cs => cs

/-- Whether the candidate integer carries a minus sign. -/
def isNeg (s : String) : Bool :=
  match s.data with
  | '-' :: _ => true
  | _ => false

/-- Syntactic validity for `strconv.Atoi`: optional sign, then at least one
digit and nothing else. -/
def intSyntaxOK (s : String) : Bool :=
  !(signStripped s).isEmpty && (signStripped s).all (fun c => c.isDigit)

/-- Decimal value of a digit run. -/
def digitsVal (cs : List Char) : Nat :=
  cs.foldl (fun acc c => acc * 10 + (c.toNat - 48)) 0

/-- Value and error flag of Go `strconv.Atoi` on a 64-bit platform: the
flag is `true` exactly when Go reports an error (syntax or range), and the
value is what Go returns alongside it (0 for syntax errors, the saturated
int64 bound for range errors). -/
def goAtoiPair (s : String) : Int × Bool :=
  if !(intSyntaxOK s) then (0, true)
  else if isNeg s then
    if digitsVal (signStripped s) ≤ 2 ^ 63 then
      (-(digitsVal (signStripped s) : Int), false)
    else (-(2 ^ 63 : Int), true)
  else
    if digitsVal (signStripped s) ≤ 2 ^ 63 - 1 then
      ((digitsVal (signStripped s) : Int), false)
    else ((2 ^ 63 - 1 : Int), true)

/-- The value `corsConfig.MaxAge, _ = strconv.Atoi(...)` stores: the error
is discarded. -/
def goAtoi (s : String) : Int := (goAtoiPair s).1

/-! ## Data model (src/main.go lines 26-48) -/

structure CORSConfig where
  AllowOrigins : List String
  AllowMethods : List String
  AllowHeaders : List String
  ExposeHeaders : List String
  MaxAge : Int
  AllowCredentials : String
deriving DecidableEq

structure CORSResult where
  URL : String
  StatusCode : Int
  Config : CORSConfig
  Vulnerable : Bool
  Vulnerability : String
deriving DecidableEq

/-- Translation of `parseHeader` (src/main.go lines 43-48): empty means the
empty list, otherwise split on commas with no trimming. -/
def parseHeader (header : String) : List String :=
  if header = "" then [] else goSplit header ','

/-! ## HTTP environment

A probe's interaction with the outside world: whether
`http.NewRequest("GET", url, nil)` succeeds (deterministic in the URL, so a
single flag), what `client.Do` answers for a request carrying a given
`Origin` header (`none` is a transport error), and what `neturl.Parse`
yields for the URL.  Only the response headers and status code that
`checkCORS` reads are kept; `resp.Header.Get` returns `""` for an absent
header, so absence is encoded as the empty string. -/

structure Response where
  allowOrigin : String
  allowMethods : String
  allowHeaders : String
  exposeHeaders : String
  maxAge : String
  allowCredentials : String
  statusCode : Int
deriving DecidableEq

structure GoURL where
  Scheme : String
  Host : String
deriving DecidableEq

structure ProbeEnv where
  newRequest : Bool
  send : String → Option Response
  parseURL : Option GoURL

/-- The parse block repeated at src/main.go lines 69-75, 109-114 and
143-148: build a `CORSConfig` from one response's headers. -/
def mkCORSConfig (resp : Response) : CORSConfig :=
  { AllowOrigins := [resp.allowOrigin]
  , AllowMethods := parseHeader resp.allowMethods
  , AllowHeaders := parseHeader resp.allowHeaders
  , ExposeHeaders := parseHeader resp.exposeHeaders
  , MaxAge := goAtoi resp.maxAge
  , AllowCredentials := resp.allowCredentials }

/-! ## Vulnerability messages (src/main.go lines 82, 85, 90, 118, 152) -/

def wildcardMsg : String :=
  "Wildcard origin (*) is set, which can allow malicious scripts to make requests on behalf of the user."

def nullOriginMsg : String :=
  "Null origin is allowed, which can allow malicious scripts to make requests on behalf of the user."

def sameDomainMsg : String :=
  "Origin allows the same domain as the target URL, which can allow malicious scripts to make requests on behalf of the user."

def differentDomainMsg : String :=
  "Origin allows a different domain, which can allow malicious scripts to make requests on behalf of the user."

/-! ## The probe engine `checkCORS` (src/main.go lines 50-167)

The public-suffix computation `publicsuffix.PublicSuffix` is an external
library; `checkCORS` takes it as the parameter `psl`.  Note the source
passes the whole URL string to it, not the parsed host.  The outcome
records what is sent on the results channel (`emitted`, `none` when the
probe aborts or finds nothing) and the `Origin` values of the HTTP requests
actually issued, in order. -/

structure ProbeOutcome where
  emitted : Option CORSResult
  origins : List String
deriving DecidableEq

/-- Verdict of the first probe's classification (src/main.go lines 80-92):
wildcard, then null origin, then the public-suffix suffix test, first match
wins. -/
def probe1Verdict (psl : String → String) (url : String) (cfg : CORSConfig) : Option String :=
  if cfg.AllowOrigins.getD 0 "" == "*" then some wildcardMsg
  else if cfg.AllowOrigins.getD 0 "" == "null" then some nullOriginMsg
  else if !(psl url == "") && goHasSuffix (cfg.AllowOrigins.getD 0 "") (psl url) then
    some sameDomainMsg
  else none

/-- Third probe (src/main.go lines 122-154): parse the URL, send the
target's own `scheme://host` as `Origin`, and flag an exact reflection. -/
def probe3 (url : String) (env : ProbeEnv) : Option CORSResult × List String :=
  match env.parseURL with
  | none => (none, [])
  | some u =>
    if env.newRequest = false then (none, [])
    else
      match env.send (u.Scheme ++ "://" ++ u.Host) with
      | none => (none, [u.Scheme ++ "://" ++ u.Host])
      | some resp =>
        if (mkCORSConfig resp).AllowOrigins.getD 0 "" == u.Scheme ++ "://" ++ u.Host then
          (some ⟨url, resp.statusCode, mkCORSConfig resp, true, sameDomainMsg⟩,
           [u.Scheme ++ "://" ++ u.Host])
        else (none, [u.Scheme ++ "://" ++ u.Host])

/-- Second probe (src/main.go lines 94-120): send `Origin:
http://example.com` and flag an exact reflection; otherwise fall through to
the third probe. -/
def probe2 (url : String) (env : ProbeEnv) : Option CORSResult × List String :=
  if env.newRequest = false then (none, [])
  else
    match env.send "http://example.com" with
    | none => (none, ["http://example.com"])
    | some resp =>
      if (mkCORSConfig resp).AllowOrigins.getD 0 "" == "http://example.com" then
        (some ⟨url, resp.statusCode, mkCORSConfig resp, true, differentDomainMsg⟩,
         ["http://example.com"])
      else ((probe3 url env).1, "http://example.com" :: (probe3 url env).2)

/-- The probe engine `checkCORS`: up to three sequential probes,
short-circuiting on the first positive, sending a result on the channel
only when vulnerable. -/
def checkCORS (psl : String → String) (url : String) (env : ProbeEnv) : ProbeOutcome :=
  if env.newRequest = false then ⟨none, []⟩
  else
    match env.send "null" with
    | none => ⟨none, ["null"]⟩
    | some resp =>
      match probe1Verdict psl url (mkCORSConfig resp) with
      | some msg => ⟨some ⟨url, resp.statusCode, mkCORSConfig resp, true, msg⟩, ["null"]⟩
      | none => ⟨(probe2 url env).1, "null" :: (probe2 url env).2⟩

/-! ## The worker pool (src/main.go lines 213-241)

Each worker loops `for url := range urlChan { if url != "" { checkCORS(...) } }`
and vulnerable results are funnelled into one channel.  Delivery order among
workers is unconstrained, so the pool is modelled by the canonical
sequential schedule: URLs processed in input order, each non-blank URL
probed exactly once, its emission (if any) appended to the output.
`invocations` records the URLs actually handed to `checkCORS`. -/

structure PoolOutcome where
  invocations : List String
  results : List CORSResult
deriving DecidableEq

def workerLoop (psl : String → String) (world : String → ProbeEnv) :
    List String → PoolOutcome
  | [] => ⟨[], []⟩
  | url :: rest =>
    let tail := workerLoop psl world rest
    if url = "" then tail
    else
      let out := checkCORS psl url (world url)
      ⟨url :: tail.invocations, out.emitted.toList ++ tail.results⟩

/-! ## The collector's categorization (src/main.go lines 249-259) -/

inductive Bucket where
  | nullOrigin
  | wildcardOrigin
  | domainOrigin
  | differentDomain
deriving DecidableEq

/-- First-match categorization switch of the collector loop. -/
def categorize (r : CORSResult) : Option Bucket :=
  if goContains r.Vulnerability "Null origin" then some .nullOrigin
  else if goContains r.Vulnerability "Wildcard origin" then some .wildcardOrigin
  else if goContains r.Vulnerability "same domain" then some .domainOrigin
  else if goContains r.Vulnerability "different domain" then some .differentDomain
  else none

/-! ## Model of `golang.org/x/net/publicsuffix.PublicSuffix`

The library implements the public-suffix-list algorithm over its compiled
rule table: split the domain on dots, find the matching rules (a rule's
labels must be a label-wise suffix of the domain's, `*` matching any one
label), prefer an exception rule (its suffix drops the rule's leftmost
label), otherwise take the longest match, and when nothing matches apply
the default rule `*` (the last label alone).  The table itself is data; the
algorithm is parameterized by it here. -/

structure PSLRule where
  labels : List String
  exception : Bool
deriving DecidableEq

/-- Reversed-label matching for public-suffix rules. -/
def labelsMatch : List String → List String → Bool
  | [], _ => true
  | _ :: _, [] => false
  | r :: rs, d :: ds => (r == "*" || r == d) && labelsMatch rs ds

/-- The last `n` labels of a split domain, rejoined with dots. -/
def lastLabels (n : Nat) (ls : List String) : String :=
  joinDots (ls.drop (ls.length - n))

/-- Public-suffix-list lookup parameterized by the rule table. -/
def publicSuffixAlg (rules : List PSLRule) (domain : String) : String :=
  let doms := goSplit domain '.'
  let domRev := doms.reverse
  let matching := rules.filter (fun rule => labelsMatch rule.labels.reverse domRev)
  match matching.filter (fun rule => rule.exception) with
  | e :: _ => lastLabels (e.labels.length - 1) doms
  | [] =>
    let n := matching.foldl (fun acc rule => max acc rule.labels.length) 0
    if n == 0 then lastLabels 1 doms else lastLabels n doms

/-- Claim C1's reading of the probe-1 same-domain test, following the
spec's words: the public suffix of the target URL's HOST (not of the raw
URL string) is non-empty and the reflected allow-origin value ends with
it. -/
def specProbe1SameDomain (psl : String → String) (host allowOrigin : String) : Prop :=
  psl host ≠ "" ∧ goHasSuffix allowOrigin (psl host) = true

/-! ## Concrete fixtures

Small concrete servers used to instantiate the theorems below on explicit
inputs. -/

/-- A response carrying only an `Access-Control-Allow-Origin` value. -/
def wResp (o : String) (code : Int) : Response :=
  ⟨o, "", "", "", "", "", code⟩

/-- A server reflecting `*` on the null-origin probe and failing otherwise. -/
def envStar : ProbeEnv :=
  ⟨true, fun o => if o == "null" then some (wResp "*" 204) else none, none⟩

/-- A server with no CORS headers on the null probe that reflects the
third-party origin `http://example.com`. -/
def envReflectExample : ProbeEnv :=
  ⟨true,
   fun o => if o == "http://example.com" then some (wResp "http://example.com" 200)
            else some (wResp "" 200),
   some ⟨"http", "t.com"⟩⟩

/-- A server answering every probe with no CORS headers at all. -/
def envNoCORS : ProbeEnv :=
  ⟨true, fun _ => some (wResp "" 200), some ⟨"http", "t.com"⟩⟩

/-- A server reflecting `http://b.com` on the null probe and answering the
later probes with no CORS headers; its URL parses to host `a.com`. -/
def envSuffixB : ProbeEnv :=
  ⟨true,
   fun o => if o == "null" then some (wResp "http://b.com" 200)
            else some (wResp "" 200),
   some ⟨"http", "a.com"⟩⟩

/-- A server reflecting `http://evil.com` on the null probe. -/
def envEvil : ProbeEnv :=
  ⟨true, fun o => if o == "null" then some (wResp "http://evil.com" 200) else none, none⟩

/-- The single-rule public-suffix table holding only `com`. -/
def rulesCom : List PSLRule := [⟨["com"], false⟩]

/-! ## Helper lemmas -/

/-- A non-empty string is never a suffix of the empty string. -/
theorem goHasSuffix_empty_left (s : String) (hs : s ≠ "") : goHasSuffix "" s = false := by
  unfold goHasSuffix
  have hd : s.data ≠ [] := by
    intro hnil
    apply hs
    cases s with
    | mk d => cases hnil; rfl
  cases h : s.data.reverse with
  | nil => exact absurd (List.reverse_eq_nil_iff.mp h) hd
  | cons c cs => rfl

/-- The `scheme://host` string sent by the third probe is never empty. -/
theorem schemeHost_ne_empty (a b : String) : a ++ "://" ++ b ≠ "" := by
  intro h
  have hl := congrArg String.length h
  rw [String.length_append, String.length_append] at hl
  have h3 : ("://" : String).length = 3 := rfl
  have h0 : ("" : String).length = 0 := rfl
  rw [h3, h0] at hl
  omega

/-- The one-element `AllowOrigins` list always yields the raw header value
at index 0. -/
theorem mkCORSConfig_getD (resp : Response) :
    (mkCORSConfig resp).AllowOrigins.getD 0 "" = resp.allowOrigin := rfl

/-- Any verdict of the first probe is one of its three messages. -/
theorem probe1Verdict_inv {psl : String → String} {url : String} {cfg : CORSConfig}
    {m : String} (h : probe1Verdict psl url cfg = some m) :
    m = wildcardMsg ∨ m = nullOriginMsg ∨ m = sameDomainMsg := by
  unfold probe1Verdict at h
  split at h
  · exact Or.inl (Option.some_inj.mp h).symm
  · split at h
    · exact Or.inr (Or.inl (Option.some_inj.mp h).symm)
    · split at h
      · exact Or.inr (Or.inr (Option.some_inj.mp h).symm)
      · exact absurd h (by simp)

/-- The first probe finds nothing when the reflected value is neither `*`
nor `null` and the suffix test fails. -/
theorem probe1Verdict_eq_none {psl : String → String} {url : String} {resp : Response}
    (h3 : resp.allowOrigin ≠ "*") (h4 : resp.allowOrigin ≠ "null")
    (h5 : ¬(psl url ≠ "" ∧ goHasSuffix resp.allowOrigin (psl url) = true)) :
    probe1Verdict psl url (mkCORSConfig resp) = none := by
  unfold probe1Verdict
  rw [mkCORSConfig_getD]
  rw [if_neg (by simp [h3]), if_neg (by simp [h4]), if_neg]
  intro hb
  rcases Bool.and_eq_true _ _ |>.mp hb with ⟨hb1, hb2⟩
  exact h5 ⟨by simpa using hb1, hb2⟩

/-- The first probe reports the same-domain verdict when the suffix test
passes on a value that is neither `*` nor `null`. -/
theorem probe1Verdict_eq_same {psl : String → String} {url : String} {resp : Response}
    (h3 : resp.allowOrigin ≠ "*") (h4 : resp.allowOrigin ≠ "null")
    (hne : psl url ≠ "") (hsuf : goHasSuffix resp.allowOrigin (psl url) = true) :
    probe1Verdict psl url (mkCORSConfig resp) = some sameDomainMsg := by
  unfold probe1Verdict
  rw [mkCORSConfig_getD]
  rw [if_neg (by simp [h3]), if_neg (by simp [h4]), if_pos]
  simp [hne, hsuf]

/-- Once the engine reaches the second probe, at least one more request is
issued. -/
theorem probe2_origins_ne_nil {url : String} {env : ProbeEnv}
    (h1 : env.newRequest = true) : (probe2 url env).2 ≠ [] := by
  unfold probe2
  rw [h1]
  rw [if_neg (by simp)]
  rcases henv : env.send "http://example.com" with _ | resp
  · simp
  · by_cases hr : resp.allowOrigin = "http://example.com" <;> simp [mkCORSConfig, hr]

/-- Whatever the third probe emits is a vulnerable same-domain result for
the probed URL. -/
theorem probe3_emitted_inv {url : String} {env : ProbeEnv} {r : CORSResult}
    (h : (probe3 url env).1 = some r) :
    r.Vulnerable = true ∧ r.URL = url ∧ r.Vulnerability = sameDomainMsg := by
  unfold probe3 at h
  split at h
  · simp at h
  · split at h
    · simp at h
    · split at h
      · simp at h
      · split at h
        · rw [Prod.fst] at h
          cases Option.some_inj.mp h
          exact ⟨rfl, rfl, rfl⟩
        · simp at h

/-- Whatever the second probe emits is vulnerable, for the probed URL, and
carries the different-domain or same-domain message. -/
theorem probe2_emitted_inv {url : String} {env : ProbeEnv} {r : CORSResult}
    (h : (probe2 url env).1 = some r) :
    r.Vulnerable = true ∧ r.URL = url ∧
      (r.Vulnerability = differentDomainMsg ∨ r.Vulnerability = sameDomainMsg) := by
  unfold probe2 at h
  split at h
  · simp at h
  · split at h
    · simp at h
    · split at h
      · rw [Prod.fst] at h
        cases Option.some_inj.mp h
        exact ⟨rfl, rfl, Or.inl rfl⟩
      · rw [Prod.fst] at h
        rcases probe3_emitted_inv h with ⟨hv, hu, hm⟩
        exact ⟨hv, hu, Or.inr hm⟩

/-- Whatever `checkCORS` sends on the results channel is a vulnerable
result for the probed URL, carrying one of the four fixed messages. -/
theorem checkCORS_emitted_inv {psl : String → String} {url : String} {env : ProbeEnv}
    {r : CORSResult} (h : (checkCORS psl url env).emitted = some r) :
    r.Vulnerable = true ∧ r.URL = url ∧
      (r.Vulnerability = wildcardMsg ∨ r.Vulnerability = nullOriginMsg ∨
       r.Vulnerability = sameDomainMsg ∨ r.Vulnerability = differentDomainMsg) := by
  unfold checkCORS at h
  split at h
  · simp at h
  · split at h
    · simp at h
    · rename_i resp heq
      split at h
      · rename_i msg hverdict
        rw [ProbeOutcome.emitted] at h
        cases Option.some_inj.mp h
        rcases probe1Verdict_inv hverdict with hm | hm | hm <;>
          exact ⟨rfl, rfl, by simp [hm]⟩
      · rw [ProbeOutcome.emitted] at h
        rcases probe2_emitted_inv h with ⟨hv, hu, hm⟩
        refine ⟨hv, hu, ?_⟩
        rcases hm with hm | hm
        · exact Or.inr (Or.inr (Or.inr hm))
        · exact Or.inr (Or.inr (Or.inl hm))

/-- Closed form of the worker loop: the URLs probed are exactly the
non-blank input lines in order, and the delivered results are exactly the
emissions of those probes. -/
theorem workerLoop_spec (psl : String → String) (world : String → ProbeEnv)
    (urls : List String) :
    workerLoop psl world urls =
      ⟨urls.filter (fun u => !(u == "")),
       (urls.filter (fun u => !(u == ""))).filterMap
         (fun u => (checkCORS psl u (world u)).emitted)⟩ := by
  induction urls with
  | nil => rfl
  | cons url rest ih =>
    simp only [workerLoop]
    rw [ih]
    by_cases hu : url = ""
    · subst hu
      simp
    · have hb : (url == "") = false := beq_eq_false_iff_ne.mpr hu
      rw [if_neg hu, List.filter_cons_of_pos (by simp [hb]), List.filterMap_cons]
      cases hem : (checkCORS psl url (world url)).emitted <;> simp [hem]

/-- An emission filtered against its own URL vanishes: results sent by a
probe always carry that probe's URL. -/
theorem emitted_filter_self (psl : String → String) (u : String) (env : ProbeEnv) :
    ((checkCORS psl u env).emitted.toList.filter (fun r => !(r.URL == u))) = [] := by
  cases h : (checkCORS psl u env).emitted with
  | none => rfl
  | some r =>
    have hr := (checkCORS_emitted_inv h).2.1
    simp [Option.toList, List.filter, hr]

/-- Changing the environment of one URL leaves the pool's invocations and
all sibling results untouched. -/
theorem workerLoop_frame (psl : String → String) (url : String)
    (urls : List String) (w₁ w₂ : String → ProbeEnv)
    (hagree : ∀ v, v ≠ url → w₁ v = w₂ v) :
    (workerLoop psl w₁ urls).invocations = (workerLoop psl w₂ urls).invocations ∧
    (workerLoop psl w₁ urls).results.filter (fun r => !(r.URL == url)) =
      (workerLoop psl w₂ urls).results.filter (fun r => !(r.URL == url)) := by
  induction urls with
  | nil => exact ⟨rfl, rfl⟩
  | cons u rest ih =>
    simp only [workerLoop]
    by_cases hu : u = ""
    · rw [if_pos hu, if_pos hu]
      exact ih
    · rw [if_neg hu, if_neg hu]
      by_cases hv : u = url
      · subst hv
        refine ⟨by simp [ih.1], ?_⟩
        rw [PoolOutcome.results, PoolOutcome.results, List.filter_append, List.filter_append,
          emitted_filter_self, emitted_filter_self, ih.2]
      · rw [hagree u hv]
        refine ⟨by simp [ih.1], ?_⟩
        rw [PoolOutcome.results, PoolOutcome.results, List.filter_append, List.filter_append,
          ih.2]

/-! ## Claim theorems -/

/-- C2: the pool probes exactly the non-blank URLs, each exactly once and in
order; blank entries contribute no probe invocation and no result; the
output sequence consists of exactly the emissions of those probes, each
appearing exactly once. -/
theorem pool_probes_nonblank_once (psl : String → String) (world : String → ProbeEnv)
    (urls : List String) :
    (workerLoop psl world urls).invocations = urls.filter (fun u => !(u == "")) ∧
    (workerLoop psl world urls).results =
      (urls.filter (fun u => !(u == ""))).filterMap
        (fun u => (checkCORS psl u (world u)).emitted) := by
  rw [workerLoop_spec]
  exact ⟨rfl, rfl⟩

/-- C3: the probe engine never sends a result whose vulnerable flag is
false; consequently every result the pool delivers to the collector is
vulnerable. -/
theorem only_vulnerable_emitted :
    (∀ (psl : String → String) (url : String) (env : ProbeEnv) (r : CORSResult),
        (checkCORS psl url env).emitted = some r → r.Vulnerable = true) ∧
    (∀ (psl : String → String) (world : String → ProbeEnv) (urls : List String)
        (r : CORSResult),
        r ∈ (workerLoop psl world urls).results → r.Vulnerable = true) := by
  constructor
  · intro psl url env r h
    exact (checkCORS_emitted_inv h).1
  · intro psl world urls r hmem
    rw [workerLoop_spec] at hmem
    rcases List.mem_filterMap.mp hmem with ⟨u, -, hu⟩
    exact (checkCORS_emitted_inv hu).1

/-- Witness for C3 at a concrete wildcard-reflecting server, through both
the engine-level and the pool-level part of the theorem. -/
theorem only_vulnerable_emitted_witness :
    (CORSResult.mk "http://t.com" 204
        (mkCORSConfig (wResp "*" 204)) true wildcardMsg).Vulnerable = true ∧
    (CORSResult.mk "http://t.com" 204
        (mkCORSConfig (wResp "*" 204)) true wildcardMsg).Vulnerable = true :=
  ⟨only_vulnerable_emitted.1 (fun _ => "") "http://t.com" envStar
      (CORSResult.mk "http://t.com" 204 (mkCORSConfig (wResp "*" 204)) true wildcardMsg)
      (by decide),
   only_vulnerable_emitted.2 (fun _ => "") (fun _ => envStar) ["http://t.com"]
      (CORSResult.mk "http://t.com" 204 (mkCORSConfig (wResp "*" 204)) true wildcardMsg)
      (by decide)⟩

/-- C9: parsing a response always yields a one-element `AllowOrigins` list
holding the raw `Access-Control-Allow-Origin` header value, so every
`AllowOrigins[0]` access in the probe engine is in bounds. -/
theorem allowOrigins_singleton (resp : Response) :
    (mkCORSConfig resp).AllowOrigins = [resp.allowOrigin] ∧
    (mkCORSConfig resp).AllowOrigins.length = 1 :=
  ⟨rfl, rfl⟩

/-- C4: a server answering the `Origin: null` probe with a literal `*`
yields a vulnerable wildcard result built from the first response, with
exactly one request issued. -/
theorem wildcard_first_probe_only (psl : String → String) (url : String)
    (env : ProbeEnv) (resp : Response)
    (h1 : env.newRequest = true) (h2 : env.send "null" = some resp)
    (h3 : resp.allowOrigin = "*") :
    checkCORS psl url env =
      ⟨some ⟨url, resp.statusCode, mkCORSConfig resp, true, wildcardMsg⟩, ["null"]⟩ := by
  have hv : probe1Verdict psl url (mkCORSConfig resp) = some wildcardMsg := by
    unfold probe1Verdict
    rw [mkCORSConfig_getD, if_pos (by simp [h3])]
  unfold checkCORS
  rw [h1, if_neg (by simp), h2]
  simp [hv]

/-- Witness for C4 at a concrete wildcard-reflecting server. -/
theorem wildcard_first_probe_only_witness :
    checkCORS (fun _ => "") "http://t.com" envStar =
      ⟨some ⟨"http://t.com", 204, mkCORSConfig (wResp "*" 204), true, wildcardMsg⟩,
       ["null"]⟩ :=
  wildcard_first_probe_only (fun _ => "") "http://t.com" envStar (wResp "*" 204)
    rfl (by decide) rfl

/-- C5: when the null-origin probe finds nothing and the server reflects
the third-party origin `http://example.com`, the engine reports a
vulnerable different-domain result built from the second response, with
exactly two requests issued. -/
theorem different_domain_two_probes (psl : String → String) (url : String)
    (env : ProbeEnv) (resp1 resp2 : Response)
    (h1 : env.newRequest = true)
    (h2 : env.send "null" = some resp1)
    (h2a : probe1Verdict psl url (mkCORSConfig resp1) = none)
    (h3 : env.send "http://example.com" = some resp2)
    (h3a : resp2.allowOrigin = "http://example.com") :
    checkCORS psl url env =
      ⟨some ⟨url, resp2.statusCode, mkCORSConfig resp2, true, differentDomainMsg⟩,
       ["null", "http://example.com"]⟩ := by
  have hp2 : probe2 url env =
      (some ⟨url, resp2.statusCode, mkCORSConfig resp2, true, differentDomainMsg⟩,
       ["http://example.com"]) := by
    unfold probe2
    rw [h1, if_neg (by simp), h3]
    simp [mkCORSConfig, h3a]
  unfold checkCORS
  rw [h1, if_neg (by simp), h2]
  simp [h2a, hp2]

/-- Witness for C5 at a concrete server reflecting only
`http://example.com`. -/
theorem different_domain_two_probes_witness :
    checkCORS (fun _ => "") "http://t.com" envReflectExample =
      ⟨some ⟨"http://t.com", 200, mkCORSConfig (wResp "http://example.com" 200), true,
          differentDomainMsg⟩, ["null", "http://example.com"]⟩ :=
  different_domain_two_probes (fun _ => "") "http://t.com" envReflectExample
    (wResp "" 200) (wResp "http://example.com" 200)
    rfl (by decide) (by decide) (by decide) rfl

/-- C6: a server that sets no CORS headers for any probed origin yields no
emission, at the cost of exactly three requests. -/
theorem no_cors_headers_three_probes (psl : String → String) (url : String)
    (env : ProbeEnv) (u : GoURL) (resp1 resp2 resp3 : Response)
    (h1 : env.newRequest = true) (hu : env.parseURL = some u)
    (h2 : env.send "null" = some resp1) (h2a : resp1.allowOrigin = "")
    (h3 : env.send "http://example.com" = some resp2) (h3a : resp2.allowOrigin = "")
    (h4 : env.send (u.Scheme ++ "://" ++ u.Host) = some resp3)
    (h4a : resp3.allowOrigin = "") :
    checkCORS psl url env =
      ⟨none, ["null", "http://example.com", u.Scheme ++ "://" ++ u.Host]⟩ := by
  have hv1 : probe1Verdict psl url (mkCORSConfig resp1) = none := by
    refine probe1Verdict_eq_none (by simp [h2a]) (by simp [h2a]) ?_
    rintro ⟨hne, hsuf⟩
    rw [h2a, goHasSuffix_empty_left _ hne] at hsuf
    exact Bool.false_ne_true hsuf
  have hne3 : ("" : String) ≠ u.Scheme ++ "://" ++ u.Host :=
    Ne.symm (schemeHost_ne_empty u.Scheme u.Host)
  have hp3 : probe3 url env = (none, [u.Scheme ++ "://" ++ u.Host]) := by
    unfold probe3
    rw [hu]
    simp [h1, h4, mkCORSConfig, h4a, hne3]
  have hp2 : probe2 url env =
      (none, ["http://example.com", u.Scheme ++ "://" ++ u.Host]) := by
    unfold probe2
    rw [h1, if_neg (by simp), h3]
    simp [mkCORSConfig, h3a, hp3]
  unfold checkCORS
  rw [h1, if_neg (by simp), h2]
  simp [hv1, hp2]

/-- Witness for C6 at a concrete CORS-less server. -/
theorem no_cors_headers_three_probes_witness :
    checkCORS (fun _ => "") "http://t.com" envNoCORS =
      ⟨none, ["null", "http://example.com", "http://t.com"]⟩ :=
  no_cors_headers_three_probes (fun _ => "") "http://t.com" envNoCORS
    ⟨"http", "t.com"⟩ (wResp "" 200) (wResp "" 200) (wResp "" 200)
    rfl rfl (by decide) rfl (by decide) rfl (by decide) rfl

/-- C7: a request-construction, transport or URL-parse failure at any stage
aborts the remaining probes for that URL and emits nothing, and a URL's
environment never influences the pool's invocations or any sibling URL's
results. -/
theorem probe_failure_fail_silent (psl : String → String) (url : String) :
    (∀ env : ProbeEnv, env.newRequest = false →
        checkCORS psl url env = ⟨none, []⟩) ∧
    (∀ env : ProbeEnv, env.newRequest = true → env.send "null" = none →
        checkCORS psl url env = ⟨none, ["null"]⟩) ∧
    (∀ (env : ProbeEnv) (resp1 : Response),
        env.newRequest = true → env.send "null" = some resp1 →
        probe1Verdict psl url (mkCORSConfig resp1) = none →
        env.send "http://example.com" = none →
        checkCORS psl url env = ⟨none, ["null", "http://example.com"]⟩) ∧
    (∀ (env : ProbeEnv) (resp1 resp2 : Response),
        env.newRequest = true → env.send "null" = some resp1 →
        probe1Verdict psl url (mkCORSConfig resp1) = none →
        env.send "http://example.com" = some resp2 →
        resp2.allowOrigin ≠ "http://example.com" →
        env.parseURL = none →
        checkCORS psl url env = ⟨none, ["null", "http://example.com"]⟩) ∧
    (∀ (env : ProbeEnv) (resp1 resp2 : Response) (u : GoURL),
        env.newRequest = true → env.send "null" = some resp1 →
        probe1Verdict psl url (mkCORSConfig resp1) = none →
        env.send "http://example.com" = some resp2 →
        resp2.allowOrigin ≠ "http://example.com" →
        env.parseURL = some u →
        env.send (u.Scheme ++ "://" ++ u.Host) = none →
        checkCORS psl url env =
          ⟨none, ["null", "http://example.com", u.Scheme ++ "://" ++ u.Host]⟩) ∧
    (∀ (urls : List String) (w₁ w₂ : String → ProbeEnv),
        (∀ v, v ≠ url → w₁ v = w₂ v) →
        (workerLoop psl w₁ urls).invocations = (workerLoop psl w₂ urls).invocations ∧
        (workerLoop psl w₁ urls).results.filter (fun r => !(r.URL == url)) =
          (workerLoop psl w₂ urls).results.filter (fun r => !(r.URL == url))) := by
  refine ⟨?_, ?_, ?_, ?_, ?_, ?_⟩
  · intro env h
    unfold checkCORS
    rw [if_pos h]
  · intro env h1 hs
    unfold checkCORS
    rw [h1, if_neg (by simp), hs]
  · intro env resp1 h1 h2 hv hs
    have hp2 : probe2 url env = (none, ["http://example.com"]) := by
      unfold probe2
      rw [h1, if_neg (by simp), hs]
    unfold checkCORS
    rw [h1, if_neg (by simp), h2]
    simp [hv, hp2]
  · intro env resp1 resp2 h1 h2 hv h3 h3a hp
    have hp3 : probe3 url env = (none, []) := by
      unfold probe3
      rw [hp]
    have hp2 : probe2 url env = (none, ["http://example.com"]) := by
      unfold probe2
      rw [h1, if_neg (by simp), h3]
      simp [mkCORSConfig, h3a, hp3]
    unfold checkCORS
    rw [h1, if_neg (by simp), h2]
    simp [hv, hp2]
  · intro env resp1 resp2 u h1 h2 hv h3 h3a hp hs3
    have hp3 : probe3 url env = (none, [u.Scheme ++ "://" ++ u.Host]) := by
      unfold probe3
      rw [hp]
      simp [h1, hs3]
    have hp2 : probe2 url env =
        (none, ["http://example.com", u.Scheme ++ "://" ++ u.Host]) := by
      unfold probe2
      rw [h1, if_neg (by simp), h3]
      simp [mkCORSConfig, h3a, hp3]
    unfold checkCORS
    rw [h1, if_neg (by simp), h2]
    simp [hv, hp2]
  · intro urls w₁ w₂ hagree
    exact workerLoop_frame psl url urls w₁ w₂ hagree

/-- Witness for C7: each failure stage exercised at a concrete server, and
the isolation clause at a concrete two-URL pool whose first URL's
environment changes. -/
theorem probe_failure_fail_silent_witness :
    checkCORS (fun _ => "") "http://t.com" ⟨false, fun _ => none, none⟩ = ⟨none, []⟩ ∧
    checkCORS (fun _ => "") "http://t.com" ⟨true, fun _ => none, none⟩ =
      ⟨none, ["null"]⟩ ∧
    checkCORS (fun _ => "") "http://t.com"
      ⟨true, fun o => if o == "null" then some (wResp "" 200) else none, none⟩ =
      ⟨none, ["null", "http://example.com"]⟩ ∧
    checkCORS (fun _ => "") "http://t.com" ⟨true, fun _ => some (wResp "" 200), none⟩ =
      ⟨none, ["null", "http://example.com"]⟩ ∧
    checkCORS (fun _ => "") "http://t.com"
      ⟨true, fun o => if o == "http://t.com" then none else some (wResp "" 200),
       some ⟨"http", "t.com"⟩⟩ =
      ⟨none, ["null", "http://example.com", "http://t.com"]⟩ ∧
    ((workerLoop (fun _ => "")
        (fun v => if v = "http://a.com" then envStar else envReflectExample)
        ["http://a.com", "http://b.com"]).invocations =
      (workerLoop (fun _ => "")
        (fun v => if v = "http://a.com" then ⟨false, fun _ => none, none⟩
                  else envReflectExample)
        ["http://a.com", "http://b.com"]).invocations ∧
     (workerLoop (fun _ => "")
        (fun v => if v = "http://a.com" then envStar else envReflectExample)
        ["http://a.com", "http://b.com"]).results.filter
          (fun r => !(r.URL == "http://a.com")) =
      (workerLoop (fun _ => "")
        (fun v => if v = "http://a.com" then ⟨false, fun _ => none, none⟩
                  else envReflectExample)
        ["http://a.com", "http://b.com"]).results.filter
          (fun r => !(r.URL == "http://a.com"))) := by
  refine ⟨?_, ?_, ?_, ?_, ?_, ?_⟩
  · exact (probe_failure_fail_silent (fun _ => "") "http://t.com").1
      ⟨false, fun _ => none, none⟩ rfl
  · exact (probe_failure_fail_silent (fun _ => "") "http://t.com").2.1
      ⟨true, fun _ => none, none⟩ rfl rfl
  · exact (probe_failure_fail_silent (fun _ => "") "http://t.com").2.2.1
      ⟨true, fun o => if o == "null" then some (wResp "" 200) else none, none⟩
      (wResp "" 200) rfl (by decide) (by decide) (by decide)
  · exact (probe_failure_fail_silent (fun _ => "") "http://t.com").2.2.2.1
      ⟨true, fun _ => some (wResp "" 200), none⟩
      (wResp "" 200) (wResp "" 200) rfl (by decide) (by decide) (by decide)
      (by decide) rfl
  · exact (probe_failure_fail_silent (fun _ => "") "http://t.com").2.2.2.2.1
      ⟨true, fun o => if o == "http://t.com" then none else some (wResp "" 200),
       some ⟨"http", "t.com"⟩⟩
      (wResp "" 200) (wResp "" 200) ⟨"http", "t.com"⟩ rfl (by decide) (by decide)
      (by decide) (by decide) rfl (by decide)
  · exact (probe_failure_fail_silent (fun _ => "") "http://a.com").2.2.2.2.2
      ["http://a.com", "http://b.com"] _ _
      (fun v hv => by rw [if_neg hv, if_neg hv])

/-- C10: every message attached to an emitted result contains exactly one
of the four category substrings, so the collector's first-match switch
places it in exactly one bucket and drops none. -/
theorem message_category_unique (psl : String → String) (url : String)
    (env : ProbeEnv) (r : CORSResult)
    (h : (checkCORS psl url env).emitted = some r) :
    List.countP (fun sub => goContains r.Vulnerability sub)
      ["Null origin", "Wildcard origin", "same domain", "different domain"] = 1 ∧
    (categorize r).isSome = true := by
  obtain ⟨rURL, rCode, rCfg, rVul, rMsg⟩ := r
  rcases checkCORS_emitted_inv h with ⟨-, -, hm⟩
  dsimp only at hm
  rcases hm with hm | hm | hm | hm <;> subst hm <;>
    exact ⟨by dsimp only; decide, by unfold categorize; dsimp only; decide⟩

/-- Witness for C10 at a concrete wildcard emission. -/
theorem message_category_unique_witness :
    List.countP (fun sub => goContains wildcardMsg sub)
      ["Null origin", "Wildcard origin", "same domain", "different domain"] = 1 ∧
    (categorize ⟨"http://t.com", 204, mkCORSConfig (wResp "*" 204), true,
        wildcardMsg⟩).isSome = true :=
  message_category_unique (fun _ => "") "http://t.com" envStar
    ⟨"http://t.com", 204, mkCORSConfig (wResp "*" 204), true, wildcardMsg⟩
    (by decide)

/-- C1 (amended): when the first probe's reflected value is neither `*` nor
`null`, the engine flags a same-domain vulnerability in the first probe if
and only if the public suffix of the FULL URL STRING (not of the URL's
host) is non-empty and the reflected value ends with it. -/
theorem same_domain_uses_full_url (psl : String → String) (url : String)
    (env : ProbeEnv) (resp : Response)
    (h1 : env.newRequest = true) (h2 : env.send "null" = some resp)
    (h3 : resp.allowOrigin ≠ "*") (h4 : resp.allowOrigin ≠ "null") :
    (checkCORS psl url env =
        ⟨some ⟨url, resp.statusCode, mkCORSConfig resp, true, sameDomainMsg⟩, ["null"]⟩)
      ↔ (psl url ≠ "" ∧ goHasSuffix resp.allowOrigin (psl url) = true) := by
  constructor
  · intro h
    by_cases hc : psl url ≠ "" ∧ goHasSuffix resp.allowOrigin (psl url) = true
    · exact hc
    · exfalso
      have hv := probe1Verdict_eq_none h3 h4 hc
      unfold checkCORS at h
      rw [h1, if_neg (by simp), h2] at h
      simp [hv] at h
      exact probe2_origins_ne_nil h1 h.2
  · rintro ⟨hne, hsuf⟩
    have hv := probe1Verdict_eq_same h3 h4 hne hsuf
    unfold checkCORS
    rw [h1, if_neg (by simp), h2]
    simp [hv]

/-- Witness for the amended C1: a bare-host URL whose public suffix `com`
is reflected as a suffix of `http://evil.com`. -/
theorem same_domain_uses_full_url_witness :
    checkCORS (publicSuffixAlg rulesCom) "b.com" envEvil =
      ⟨some ⟨"b.com", 200, mkCORSConfig (wResp "http://evil.com" 200), true,
          sameDomainMsg⟩, ["null"]⟩ :=
  (same_domain_uses_full_url (publicSuffixAlg rulesCom) "b.com" envEvil
      (wResp "http://evil.com" 200) rfl (by decide) (by decide) (by decide)).mpr
    ⟨by decide, by decide⟩

/-- Counterexample to C1 as stated: for the URL `http://a.com/x` (host
`a.com`), the host's public suffix is `com` and the reflected value
`http://b.com` ends with it, so the claim predicts a same-domain verdict;
but the code computes the public suffix of the whole URL string, `com/x`,
and emits nothing. -/
theorem same_domain_host_counterexample :
    specProbe1SameDomain (publicSuffixAlg rulesCom) "a.com" "http://b.com" ∧
    envSuffixB.parseURL = some ⟨"http", "a.com"⟩ ∧
    envSuffixB.send "null" = some (wResp "http://b.com" 200) ∧
    publicSuffixAlg rulesCom "a.com" = "com" ∧
    publicSuffixAlg rulesCom "http://a.com/x" = "com/x" ∧
    (checkCORS (publicSuffixAlg rulesCom) "http://a.com/x" envSuffixB).emitted = none :=
  ⟨⟨by decide, by decide⟩, by decide, by decide, by decide, by decide, by decide⟩

/-- Counterexample to C8 as stated: `strconv.Atoi` reports an error on the
out-of-range value `"99999999999999999999"`, yet the stored `MaxAge` is the
saturated int64 bound, not zero. -/
theorem atoi_range_counterexample :
    (goAtoiPair "99999999999999999999").2 = true ∧
    goAtoi "99999999999999999999" = 9223372036854775807 ∧
    (mkCORSConfig ⟨"", "", "", "", "99999999999999999999", "", 200⟩).MaxAge ≠ 0 :=
  ⟨by decide, by decide, by decide⟩

/-- C8 (amended): comma-list headers split on commas with no trimming and
an absent or empty header yields the empty sequence; a `Max-Age` value that
fails to parse syntactically (including absence) yields zero, while a
syntactically valid value outside the 64-bit range yields the saturated
int64 bound. -/
theorem header_parsing_amended :
    parseHeader "" = [] ∧
    parseHeader "GET, POST" = ["GET", " POST"] ∧
    (∀ s : String, intSyntaxOK s = false → goAtoi s = 0) ∧
    (∀ (s : String) (v : Int), goAtoiPair s = (v, true) →
        v = 0 ∨ v = 2 ^ 63 - 1 ∨ v = -(2 ^ 63)) := by
  refine ⟨rfl, by decide, ?_, ?_⟩
  · intro s hs
    unfold goAtoi goAtoiPair
    rw [hs]
    simp
  · intro s v h
    unfold goAtoiPair at h
    split at h
    · simp at h
      exact Or.inl h.symm
    · split at h
      · split at h
        · simp at h
        · simp at h
          exact Or.inr (Or.inr h.symm)
      · split at h
        · simp at h
        · simp at h
          exact Or.inr (Or.inl h.symm)

/-- Witness for the amended C8: a syntactically bad value yields zero and
the overflowing value yields the saturated bound. -/
theorem header_parsing_amended_witness :
    parseHeader "" = ([] : List String) ∧
    goAtoi "12a" = 0 ∧
    ((9223372036854775807 : Int) = 0 ∨ (9223372036854775807 : Int) = 2 ^ 63 - 1 ∨
      (9223372036854775807 : Int) = -(2 ^ 63)) :=
  ⟨header_parsing_amended.1,
   header_parsing_amended.2.2.1 "12a" (by decide),
   header_parsing_amended.2.2.2 "99999999999999999999" 9223372036854775807 (by decide)⟩

end CORScanner
